import Mathlib

/-!
Verification development for the Pokedex single-page component
(source: src/src/App.tsx).  The component keeps four pieces of state
(search text, the displayed Pokemon record, a loading flag and an error
string) and exposes three operations: fetchPokemon (the lookup),
searchPokemon (form submission) and navigatePokemon (previous/next by
numeric id), plus pure presentation helpers (getTypeColor, getStatColor,
getTypeTranslated, formatStatName and the statistic bar width formula).

The embedding is shallow: the asynchronous fetch is modelled by an
explicit FetchResult parameter describing how the request resolved
(parsed success body, non-ok response, or a thrown failure), and each
operation additionally reports the request it issued, if any, as an
identifier/URL pair.
-/

/-- Embedding of the source interface Pokemon: types entry
(types: Array of objects with type.name). -/
structure PokemonType where
  name : String
deriving DecidableEq

/-- Embedding of the source interface Pokemon: stats entry
(stats: Array of objects with base_stat and stat.name). -/
structure PokemonStat where
  base_stat : Int
  stat_name : String
deriving DecidableEq

/-- Embedding of the source interface Pokemon.  The nested
sprites.other[official-artwork].front_default string is flattened to
front_default. -/
structure Pokemon where
  id : Int
  name : String
  front_default : String
  types : List PokemonType
  stats : List PokemonStat
  height : Int
  weight : Int
deriving DecidableEq

/-- The four useState pieces of the App component. -/
structure AppState where
  search : String
  pokemon : Option Pokemon
  loading : Bool
  error : String
deriving DecidableEq

/-- An identifier passed to fetchPokemon: string or number, mirroring the
TypeScript union string | number. -/
inductive Identifier where
  | str : String → Identifier
  | num : Int → Identifier
deriving DecidableEq

/-- JavaScript toString() on the identifier union: a string is itself, a
number is its decimal representation. -/
def Identifier.toJsString : Identifier → String
  | .str s => s
  | .num n => toString n

/-- How the awaited fetch resolved: response ok with a parsed body,
response not ok (the code then throws), or the fetch or body parse threw. -/
inductive FetchResult where
  | success : Pokemon → FetchResult
  | httpError : FetchResult
  | threw : FetchResult
deriving DecidableEq

/-- The fixed localized error message set in the catch branch. -/
def errorMessage : String := "Pokémon no encontrado. Comprueba el nombre."

/-- The request URL built in fetchPokemon: the template literal
concatenating the fixed base address with identifier.toString().toLowerCase(). -/
def fetchUrl (identifier : Identifier) : String :=
  "https://pokeapi.co/api/v2/pokemon/" ++ identifier.toJsString.toLower

/-- Embedding of fetchPokemon.  setLoading(true) and setError('') happen
first; then, depending on how the fetch resolved: on ok, the parsed data
is stored via setPokemon(data); on a non-ok response or a thrown failure
the catch branch sets the fixed error message; the finally branch sets
loading to false in every branch.  The second component is the URL the
request was issued to. -/
def fetchPokemon (identifier : Identifier) (result : FetchResult)
    (s : AppState) : AppState × String :=
  let url := fetchUrl identifier
  let s := { s with loading := true, error := "" }
  match result with
  | .success data => ({ s with pokemon := some data, loading := false }, url)
  | .httpError => ({ s with error := errorMessage, loading := false }, url)
  | .threw => ({ s with error := errorMessage, loading := false }, url)

/-- Model of JavaScript String.prototype.trim: drop leading and trailing
whitespace from the character list. -/
def jsTrim (s : String) : String :=
  ⟨((s.data.dropWhile Char.isWhitespace).reverse.dropWhile
      Char.isWhitespace).reverse⟩

/-- The synchronous part of searchPokemon, up to the await: if the search
text trims to empty (the falsy guard on search.trim()), return without
doing anything; otherwise clear the displayed record via setPokemon(null).
The Bool reports whether the fetch was started. -/
def searchPokemonSubmit (s : AppState) : AppState × Bool :=
  if jsTrim s.search = "" then (s, false)
  else ({ s with pokemon := none }, true)

/-- Embedding of searchPokemon: the submit phase, then, when a fetch was
started, fetchPokemon on the raw (untrimmed) search text.  The second
component records the lookup invocation (identifier and request URL), or
none when no request was issued. -/
def searchPokemon (result : FetchResult) (s : AppState) :
    AppState × Option (Identifier × String) :=
  let sb := searchPokemonSubmit s
  if sb.2 then
    let r := fetchPokemon (Identifier.str s.search) result sb.1
    (r.1, some (Identifier.str s.search, r.2))
  else (sb.1, none)

/-- The prev/next direction union of navigatePokemon. -/
inductive Direction where
  | prev : Direction
  | next : Direction
deriving DecidableEq

/-- The ternary computing newId in navigatePokemon:
direction === prev gives id - 1, otherwise id + 1. -/
def navTargetId (direction : Direction) (currentId : Int) : Int :=
  match direction with
  | .prev => currentId - 1
  | .next => currentId + 1

/-- Embedding of navigatePokemon: no-op when no record is displayed;
otherwise compute newId from the displayed id, return without a request
when newId is below 1, else run fetchPokemon with the numeric newId.
The second component records the lookup invocation, or none. -/
def navigatePokemon (direction : Direction) (result : FetchResult)
    (s : AppState) : AppState × Option (Identifier × String) :=
  match s.pokemon with
  | none => (s, none)
  | some p =>
    let newId : Int := navTargetId direction p.id
    if newId < 1 then (s, none)
    else
      let r := fetchPokemon (Identifier.num newId) result s
      (r.1, some (Identifier.num newId, r.2))

/-- The colors object literal of getTypeColor, as an association list in
source order. -/
def typeColors : List (String × String) :=
  [("normal", "bg-gray-400"), ("fire", "bg-red-500"), ("water", "bg-blue-500"),
   ("electric", "bg-yellow-400"), ("grass", "bg-green-500"), ("ice", "bg-blue-300"),
   ("fighting", "bg-red-700"), ("poison", "bg-purple-500"), ("ground", "bg-yellow-600"),
   ("flying", "bg-indigo-400"), ("psychic", "bg-pink-500"), ("bug", "bg-lime-500"),
   ("rock", "bg-yellow-800"), ("ghost", "bg-purple-700"), ("dragon", "bg-indigo-700"),
   ("dark", "bg-gray-800"), ("steel", "bg-gray-500"), ("fairy", "bg-pink-400")]

/-- Embedding of getTypeColor: colors[type] with the fixed default on a
missing key (every stored value is a non-empty string, so the
JavaScript falsy-or operator coincides with the missing-key default). -/
def getTypeColor (ty : String) : String :=
  (typeColors.lookup ty).getD "bg-gray-400"

/-- The tipos object literal of getTypeTranslated, as an association list
in source order. -/
def tipos : List (String × String) :=
  [("normal", "normal"), ("fire", "fuego"), ("water", "agua"),
   ("electric", "eléctrico"), ("grass", "planta"), ("ice", "hielo"),
   ("fighting", "lucha"), ("poison", "veneno"), ("ground", "tierra"),
   ("flying", "volador"), ("psychic", "psíquico"), ("bug", "bicho"),
   ("rock", "roca"), ("ghost", "fantasma"), ("dragon", "dragón"),
   ("dark", "siniestro"), ("steel", "acero"), ("fairy", "hada")]

/-- Embedding of getTypeTranslated: tipos[type] with the raw tag as
fallback on a missing key. -/
def getTypeTranslated (ty : String) : String :=
  (tipos.lookup ty).getD ty

/-- Embedding of getStatColor: the cascade of threshold comparisons. -/
def getStatColor (statValue : Int) : String :=
  if 150 ≤ statValue then "bg-purple-500"
  else if 100 ≤ statValue then "bg-blue-500"
  else if 70 ≤ statValue then "bg-green-500"
  else if 50 ≤ statValue then "bg-yellow-500"
  else "bg-red-500"

/-- The translations object literal of formatStatName. -/
def statTranslations : List (String × String) :=
  [("hp", "PS"), ("attack", "Ataque"), ("defense", "Defensa"),
   ("special-attack", "At. Esp."), ("special-defense", "Def. Esp."),
   ("speed", "Velocidad")]

/-- Embedding of formatStatName: translations[stat] with the raw key as
fallback. -/
def formatStatName (stat : String) : String :=
  (statTranslations.lookup stat).getD stat

/-- The statistic bar width percentage rendered in the stats list:
Math.min of base_stat / 255 * 100 and 100, as an exact rational. -/
def statBarWidth (base_stat : Int) : ℚ :=
  min ((base_stat : ℚ) / 255 * 100) 100

/-- The fixed vocabulary of category tags: the keys of the colors table. -/
def typeVocabulary : List String := typeColors.map Prod.fst

/-- Concrete sample record used to exercise the operations. -/
def samplePokemon : Pokemon :=
  { id := 1, name := "bulbasaur", front_default := "https://img.example/1.png",
    types := [⟨"grass"⟩, ⟨"poison"⟩],
    stats := [⟨45, "hp"⟩, ⟨49, "attack"⟩],
    height := 7, weight := 69 }

/-- Sample record with id 2, for previous-navigation scenarios. -/
def samplePokemon2 : Pokemon :=
  { samplePokemon with id := 2, name := "ivysaur" }

/-- Concrete state displaying samplePokemon with a pending search text. -/
def displayedState : AppState :=
  { search := "pikachu", pokemon := some samplePokemon,
    loading := false, error := "" }

/-- Concrete state displaying samplePokemon2. -/
def displayedState2 : AppState :=
  { displayedState with pokemon := some samplePokemon2 }

/-- Concrete state with no record displayed. -/
def emptyState : AppState :=
  { search := "", pokemon := none, loading := false, error := "" }

/-- Concrete state whose search text is only whitespace while a record is
displayed. -/
def blankSearchState : AppState :=
  { search := "   ", pokemon := some samplePokemon,
    loading := false, error := "" }

/-- Association-list lookup misses exactly when the key is outside the
list of first components. -/
theorem lookup_eq_none_of_not_mem :
    ∀ (l : List (String × String)) (a : String),
      a ∉ l.map Prod.fst → l.lookup a = none := by
  intro l
  induction l with
  | nil => intro a _; rfl
  | cons kv tl ih =>
    intro a h
    obtain ⟨k, v⟩ := kv
    simp only [List.map_cons, List.mem_cons, not_or] at h
    have hbeq : (a == k) = false := by
      cases hb : a == k
      · rfl
      · exact absurd (eq_of_beq hb) h.1
    simp [List.lookup, hbeq, ih a h.2]

/-- C1: every lookup ends with loading false; a successful lookup stores
the parsed response as the record; a lookup whose fetch yields a non-ok
response or throws sets the fixed localized error message and leaves the
record unchanged. -/
theorem fetchPokemon_outcome (i : Identifier) (r : FetchResult) (s : AppState) :
    (fetchPokemon i r s).1.loading = false ∧
    (∀ d, r = FetchResult.success d → (fetchPokemon i r s).1.pokemon = some d) ∧
    ((∀ d, r ≠ FetchResult.success d) →
      (fetchPokemon i r s).1.error = errorMessage ∧
      (fetchPokemon i r s).1.pokemon = s.pokemon) := by
  cases r with
  | success d =>
    refine ⟨rfl, ?_, ?_⟩
    · intro d' hd
      cases hd
      rfl
    · intro h
      exact absurd rfl (h d)
  | httpError =>
    exact ⟨rfl, fun d hd => FetchResult.noConfusion hd, fun _ => ⟨rfl, rfl⟩⟩
  | threw =>
    exact ⟨rfl, fun d hd => FetchResult.noConfusion hd, fun _ => ⟨rfl, rfl⟩⟩

/-- Witness for fetchPokemon_outcome at concrete inputs: a successful
fetch stores the sample record, and a non-ok fetch sets the error and
keeps the previous record. -/
theorem fetchPokemon_outcome_witness :
    (fetchPokemon (Identifier.str "pikachu") (FetchResult.success samplePokemon)
        displayedState).1.pokemon = some samplePokemon ∧
    (fetchPokemon (Identifier.num 9999) FetchResult.httpError
        displayedState).1.error = errorMessage ∧
    (fetchPokemon (Identifier.num 9999) FetchResult.httpError
        displayedState).1.pokemon = displayedState.pokemon :=
  ⟨(fetchPokemon_outcome (Identifier.str "pikachu")
      (FetchResult.success samplePokemon) displayedState).2.1 samplePokemon rfl,
   ((fetchPokemon_outcome (Identifier.num 9999) FetchResult.httpError
      displayedState).2.2 (fun _ hd => FetchResult.noConfusion hd)).1,
   ((fetchPokemon_outcome (Identifier.num 9999) FetchResult.httpError
      displayedState).2.2 (fun _ hd => FetchResult.noConfusion hd)).2⟩

/-- C2 counterexample: in the source (the variant with navigation and
statistics), submitting a non-blank search clears the displayed record
at submission time, before the fetch resolves, so the record is not left
in place as claimed. -/
theorem searchSubmit_clears_record_cex :
    displayedState.pokemon = some samplePokemon ∧
    jsTrim displayedState.search ≠ "" ∧
    (searchPokemonSubmit displayedState).1.pokemon = none ∧
    (searchPokemonSubmit displayedState).1.pokemon ≠ displayedState.pokemon := by
  refine ⟨rfl, by decide, rfl, by decide⟩

/-- C2 (amended): submitting a non-blank search clears the displayed
record to absent at submission time, before the new fetch resolves, and
the new fetch then runs from that cleared state on the raw search text. -/
theorem searchSubmit_clears_record (r : FetchResult) (s : AppState)
    (h : jsTrim s.search ≠ "") :
    (searchPokemonSubmit s).1 = { s with pokemon := none } ∧
    searchPokemon r s =
      ((fetchPokemon (Identifier.str s.search) r { s with pokemon := none }).1,
       some (Identifier.str s.search,
         (fetchPokemon (Identifier.str s.search) r { s with pokemon := none }).2)) := by
  constructor
  · simp [searchPokemonSubmit, h]
  · simp [searchPokemon, searchPokemonSubmit, h]

/-- Witness for searchSubmit_clears_record at the concrete displayed
state. -/
theorem searchSubmit_clears_record_witness :
    (searchPokemonSubmit displayedState).1 =
      { displayedState with pokemon := none } :=
  (searchSubmit_clears_record FetchResult.httpError displayedState
    (by decide)).1

/-- C3: navigation is a no-op when no record is displayed; with a record
of id N displayed, next targets N + 1 and invokes the lookup with that
numeric identifier, and previous targets N - 1 and invokes the lookup
with it whenever N - 1 is at least 1. -/
theorem navigatePokemon_targets (r : FetchResult) (s : AppState) :
    (s.pokemon = none → ∀ dir, navigatePokemon dir r s = (s, none)) ∧
    (∀ p, s.pokemon = some p → 1 ≤ p.id →
      navigatePokemon Direction.next r s =
        ((fetchPokemon (Identifier.num (p.id + 1)) r s).1,
         some (Identifier.num (p.id + 1),
           (fetchPokemon (Identifier.num (p.id + 1)) r s).2))) ∧
    (∀ p, s.pokemon = some p → 1 ≤ p.id - 1 →
      navigatePokemon Direction.prev r s =
        ((fetchPokemon (Identifier.num (p.id - 1)) r s).1,
         some (Identifier.num (p.id - 1),
           (fetchPokemon (Identifier.num (p.id - 1)) r s).2))) := by
  refine ⟨?_, ?_, ?_⟩
  · intro h dir
    simp [navigatePokemon, h]
  · intro p hp hid
    simp [navigatePokemon, hp, navTargetId, show ¬(p.id + 1 < 1) by omega]
  · intro p hp hid
    simp [navigatePokemon, hp, navTargetId, show ¬(p.id - 1 < 1) by omega]

/-- Witness for navigatePokemon_targets at concrete states: empty state
no-op, next from id 1 targets 2, previous from id 2 targets 1. -/
theorem navigatePokemon_targets_witness :
    navigatePokemon Direction.next FetchResult.httpError emptyState =
      (emptyState, none) ∧
    navigatePokemon Direction.next FetchResult.httpError displayedState =
      ((fetchPokemon (Identifier.num (samplePokemon.id + 1))
          FetchResult.httpError displayedState).1,
       some (Identifier.num (samplePokemon.id + 1),
         (fetchPokemon (Identifier.num (samplePokemon.id + 1))
           FetchResult.httpError displayedState).2)) ∧
    navigatePokemon Direction.prev FetchResult.httpError displayedState2 =
      ((fetchPokemon (Identifier.num (samplePokemon2.id - 1))
          FetchResult.httpError displayedState2).1,
       some (Identifier.num (samplePokemon2.id - 1),
         (fetchPokemon (Identifier.num (samplePokemon2.id - 1))
           FetchResult.httpError displayedState2).2)) :=
  ⟨(navigatePokemon_targets FetchResult.httpError emptyState).1 rfl
      Direction.next,
   (navigatePokemon_targets FetchResult.httpError displayedState).2.1
      samplePokemon rfl (by decide),
   (navigatePokemon_targets FetchResult.httpError displayedState2).2.2
      samplePokemon2 rfl (by decide)⟩

/-- C4: with the displayed record at id 1, previous navigation issues no
request and returns the state unchanged, and in general any computed
target id below 1 gives the unchanged state with no request. -/
theorem navigatePokemon_lower_guard (r : FetchResult) (s : AppState)
    (p : Pokemon) (hp : s.pokemon = some p) :
    (p.id = 1 → navigatePokemon Direction.prev r s = (s, none)) ∧
    (∀ dir, navTargetId dir p.id < 1 → navigatePokemon dir r s = (s, none)) := by
  constructor
  · intro h1
    simp [navigatePokemon, hp, navTargetId, h1]
  · intro dir hlt
    simp [navigatePokemon, hp, hlt]

/-- Witness for navigatePokemon_lower_guard: previous from the concrete
id-1 state is a no-op, through both conjuncts. -/
theorem navigatePokemon_lower_guard_witness :
    navigatePokemon Direction.prev FetchResult.httpError displayedState =
      (displayedState, none) ∧
    navigatePokemon Direction.prev FetchResult.threw displayedState =
      (displayedState, none) :=
  ⟨(navigatePokemon_lower_guard FetchResult.httpError displayedState
      samplePokemon rfl).1 rfl,
   (navigatePokemon_lower_guard FetchResult.threw displayedState
      samplePokemon rfl).2 Direction.prev (by decide)⟩

/-- C5: the rendered statistic bar width is exactly
min of value / 255 * 100 and 100; value 0 gives 0, value 255 gives
exactly 100, and every value above 255 is clamped to 100. -/
theorem statBarWidth_formula :
    (∀ v : ℤ, statBarWidth v = min ((v : ℚ) / 255 * 100) 100) ∧
    statBarWidth 0 = 0 ∧
    statBarWidth 255 = 100 ∧
    (∀ v : ℤ, 255 < v → statBarWidth v = 100) := by
  refine ⟨fun v => rfl, ?_, ?_, ?_⟩
  · norm_num [statBarWidth]
  · norm_num [statBarWidth]
  · intro v hv
    have hc : (255 : ℚ) ≤ (v : ℚ) := by exact_mod_cast hv.le
    have h : (100 : ℚ) ≤ (v : ℚ) / 255 * 100 := by
      rw [div_mul_eq_mul_div, le_div_iff₀ (by norm_num)]
      nlinarith
    simp [statBarWidth, min_eq_right h]

/-- Witness for statBarWidth_formula: the out-of-spec value 300 is
clamped to 100. -/
theorem statBarWidth_formula_witness : statBarWidth 300 = 100 :=
  statBarWidth_formula.2.2.2 300 (by norm_num)

/-- C6: getStatColor partitions the integers by the fixed thresholds
150, 100, 70 and 50, one fixed accent per tier. -/
theorem getStatColor_tiers (v : Int) :
    (150 ≤ v → getStatColor v = "bg-purple-500") ∧
    (100 ≤ v → v < 150 → getStatColor v = "bg-blue-500") ∧
    (70 ≤ v → v < 100 → getStatColor v = "bg-green-500") ∧
    (50 ≤ v → v < 70 → getStatColor v = "bg-yellow-500") ∧
    (v < 50 → getStatColor v = "bg-red-500") := by
  refine ⟨fun h => ?_, fun h1 h2 => ?_, fun h1 h2 => ?_, fun h1 h2 => ?_,
    fun h => ?_⟩ <;>
  · unfold getStatColor
    split_ifs <;> first | rfl | omega

/-- Witness for getStatColor_tiers at one representative per tier. -/
theorem getStatColor_tiers_witness :
    getStatColor 150 = "bg-purple-500" ∧ getStatColor 100 = "bg-blue-500" ∧
    getStatColor 70 = "bg-green-500" ∧ getStatColor 50 = "bg-yellow-500" ∧
    getStatColor 49 = "bg-red-500" :=
  ⟨(getStatColor_tiers 150).1 (by decide),
   (getStatColor_tiers 100).2.1 (by decide) (by decide),
   (getStatColor_tiers 70).2.2.1 (by decide) (by decide),
   (getStatColor_tiers 50).2.2.2.1 (by decide) (by decide),
   (getStatColor_tiers 49).2.2.2.2 (by decide)⟩

/-- C7: the category-to-accent and category-to-label mappings are pure
functions of the input tag; the two tables share one fixed vocabulary,
and every tag outside it falls back to the fixed default accent and to
the unchanged input tag respectively. -/
theorem typeMappings_pure_and_fallback (t : String) :
    (∀ u : String, t = u →
      getTypeColor t = getTypeColor u ∧
      getTypeTranslated t = getTypeTranslated u) ∧
    tipos.map Prod.fst = typeVocabulary ∧
    (t ∉ typeVocabulary →
      getTypeColor t = "bg-gray-400" ∧ getTypeTranslated t = t) := by
  refine ⟨fun u hu => by rw [hu]; exact ⟨rfl, rfl⟩, by decide, fun h => ?_⟩
  constructor
  · unfold getTypeColor
    rw [lookup_eq_none_of_not_mem typeColors t h]
    rfl
  · unfold getTypeTranslated
    have h2 : t ∉ tipos.map Prod.fst := by
      intro hm
      exact h (by simpa [show tipos.map Prod.fst = typeVocabulary by decide]
        using hm)
    rw [lookup_eq_none_of_not_mem tipos t h2]
    rfl

/-- Witness for typeMappings_pure_and_fallback: the unknown tag shadow
falls back to the default accent and passes through the label mapping
unchanged, and a known tag maps consistently. -/
theorem typeMappings_witness :
    getTypeColor "shadow" = "bg-gray-400" ∧
    getTypeTranslated "shadow" = "shadow" ∧
    getTypeColor "fire" = getTypeColor "fire" :=
  ⟨((typeMappings_pure_and_fallback "shadow").2.2 (by decide)).1,
   ((typeMappings_pure_and_fallback "shadow").2.2 (by decide)).2,
   ((typeMappings_pure_and_fallback "fire").1 "fire" rfl).1⟩

/-- C8: every invocation of the lookup issues its request to the fixed
base address concatenated with the lowercase string form of the
identifier. -/
theorem fetchPokemon_request_url (i : Identifier) (r : FetchResult)
    (s : AppState) :
    (fetchPokemon i r s).2 =
      "https://pokeapi.co/api/v2/pokemon/" ++ i.toJsString.toLower := by
  cases r <;> rfl

/-- C9: submitting the search form with text that trims to empty issues
no request and returns the state unchanged. -/
theorem searchPokemon_blank_noop (r : FetchResult) (s : AppState)
    (h : jsTrim s.search = "") :
    searchPokemon r s = (s, none) := by
  simp [searchPokemon, searchPokemonSubmit, h]

/-- Witness for searchPokemon_blank_noop on a whitespace-only search
text. -/
theorem searchPokemon_blank_noop_witness :
    searchPokemon FetchResult.httpError blankSearchState =
      (blankSearchState, none) :=
  searchPokemon_blank_noop FetchResult.httpError blankSearchState (by decide)

/-- C10: when navigation issues a lookup and it fails, the previously
displayed record stays stored while the error message is set, so error
state and a displayed record coexist. -/
theorem navigate_failure_keeps_record (dir : Direction) (r : FetchResult)
    (s : AppState) (p : Pokemon) (hp : s.pokemon = some p)
    (hfail : ∀ d, r ≠ FetchResult.success d)
    (hreq : (navigatePokemon dir r s).2 ≠ none) :
    (navigatePokemon dir r s).1.pokemon = some p ∧
    (navigatePokemon dir r s).1.error = errorMessage := by
  by_cases hg : navTargetId dir p.id < 1
  · exfalso
    apply hreq
    simp [navigatePokemon, hp, hg]
  · cases r with
    | success d => exact absurd rfl (hfail d)
    | httpError => simp [navigatePokemon, hp, hg, fetchPokemon]
    | threw => simp [navigatePokemon, hp, hg, fetchPokemon]

/-- Witness for navigate_failure_keeps_record: failed next navigation
from the concrete displayed state keeps the record and sets the error. -/
theorem navigate_failure_keeps_record_witness :
    (navigatePokemon Direction.next FetchResult.httpError
        displayedState).1.pokemon = some samplePokemon ∧
    (navigatePokemon Direction.next FetchResult.httpError
        displayedState).1.error = errorMessage :=
  navigate_failure_keeps_record Direction.next FetchResult.httpError
    displayedState samplePokemon rfl
    (fun _ hd => FetchResult.noConfusion hd) (by decide)
